import Mathlib

/-!
Verification development for the tapdash-email-swarm core: a shallow
embedding of the escalation policy, precedent memory, pipeline agents,
graph executors, job queue, run store, publish dispatcher and ingest
offset tracker, with theorems checking the natural-language specification
against the code.

Modelling conventions:
* Python strings become `String` / `List Char`; `text.lower()` becomes a
  per-character `Char.toLower` map; `needle in haystack` becomes list
  infix containment.
* Python floats (confidences) become exact fractions (`Frac`): every
  comparison the code performs is an order comparison, reproduced by
  integer cross-multiplication.
* Timestamps become integer seconds (`ℤ`); `datetime.now()` is passed in
  explicitly as a `now` argument.
* Regular-expression patterns (`re.search`) are external to the embedded
  logic; each configured pattern is modelled as its source text paired
  with an opaque boolean matcher function.
-/

namespace TapdashSwarm

/-- Python `str.lower`, modelled per character. -/
def lowerChars (s : List Char) : List Char := s.map Char.toLower

/-- Python substring containment `needle in haystack`. -/
def containsSub (haystack needle : List Char) : Bool := decide (needle <:+: haystack)

/-! ## escalation_policy.py -/

/-- The `triggers` section of an escalation policy configuration
(`escalation_policy.py`): tier-C keywords, tier-C regex patterns
(modelled as source text paired with a matcher function standing for
`re.search`), and tier-A keywords. -/
structure PolicyTriggers where
  tier_c_keywords : List (List Char)
  tier_c_patterns : List (String × (List Char → Bool))
  tier_a_keywords : List (List Char)

/-- Result of `classify_text` (`PolicyDecision` dataclass). -/
structure PolicyDecision where
  tier : String
  auto_publish_allowed : Bool
  reason : String
deriving Repr, DecidableEq

/-- The keyword loop in `classify_text`: first tier-C keyword that is
truthy (non-empty) and occurs in the lowered text. -/
def findTierCKeyword (lowered : List Char) : List (List Char) → Option (List Char)
  | [] => none
  | k :: rest =>
    if !k.isEmpty && containsSub lowered k then some k
    else findTierCKeyword lowered rest

/-- `escalation_policy.classify_text`: lowered tier-C keywords first
(empty keywords skipped by the `if keyword` guard), then tier-C regex
patterns against the original text, then lowered tier-A keywords, else
tier B. -/
def classify_text (text : List Char) (p : PolicyTriggers) : PolicyDecision :=
  match findTierCKeyword (lowerChars text) (p.tier_c_keywords.map lowerChars) with
  | some k => ⟨"C", false, "tier_c_keyword:" ++ String.mk k⟩
  | none =>
    match p.tier_c_patterns.find? (fun m => m.2 text) with
    | some m => ⟨"C", false, "tier_c_pattern:" ++ m.1⟩
    | none =>
      if (p.tier_a_keywords.map lowerChars).any
          (fun k => containsSub (lowerChars text) k) then
        ⟨"A", true, "tier_a_ack_scheduling"⟩
      else
        ⟨"B", true, "tier_b_safe_operational_default"⟩

/-- The tier the claim's wording assigns: first-match over (1) any
configured tier-C keyword present in the lowered text, (2) any tier-C
pattern matching, (3) any tier-A keyword present, (4) default B.
"Present" is substring occurrence, exactly the code's `in` check. -/
def claimTier (text : List Char) (p : PolicyTriggers) : String :=
  if (p.tier_c_keywords.map lowerChars).any
      (fun k => containsSub (lowerChars text) k) then "C"
  else if p.tier_c_patterns.any (fun m => m.2 text) then "C"
  else if (p.tier_a_keywords.map lowerChars).any
      (fun k => containsSub (lowerChars text) k) then "A"
  else "B"

/-- The amended tier: as `claimTier`, except that empty-string entries in
the tier-C keyword list are ignored (the code's `if keyword` guard). -/
def amendedTier (text : List Char) (p : PolicyTriggers) : String :=
  if (p.tier_c_keywords.map lowerChars).any
      (fun k => !k.isEmpty && containsSub (lowerChars text) k) then "C"
  else if p.tier_c_patterns.any (fun m => m.2 text) then "C"
  else if (p.tier_a_keywords.map lowerChars).any
      (fun k => containsSub (lowerChars text) k) then "A"
  else "B"

lemma findTierCKeyword_eq_none (lowered : List Char) (keys : List (List Char)) :
    findTierCKeyword lowered keys = none ↔
      keys.any (fun k => !k.isEmpty && containsSub lowered k) = false := by
  induction keys with
  | nil => simp [findTierCKeyword]
  | cons k rest ih =>
    by_cases h : (!k.isEmpty && containsSub lowered k) = true
    · simp [findTierCKeyword, h]
    · simp only [Bool.not_eq_true] at h
      simp [findTierCKeyword, h, ih]

/-- C7 counterexample: with a configured tier-C keyword that is the empty
string (present in every text under the code's own substring check), the
code classifies tier B while the claim's first-match order demands tier C. -/
theorem classify_text_claim_counterexample :
    claimTier ['x'] ⟨[[]], [], []⟩ = "C" ∧
      (classify_text ['x'] ⟨[[]], [], []⟩).tier = "B" := by
  constructor <;> rfl

lemma classify_characterization (text : List Char) (p : PolicyTriggers) :
    (classify_text text p).tier = amendedTier text p ∧
    (classify_text text p).auto_publish_allowed = !(amendedTier text p == "C") := by
  unfold classify_text amendedTier
  rcases hfind : findTierCKeyword (lowerChars text)
      (p.tier_c_keywords.map lowerChars) with _ | k
  · have hany := (findTierCKeyword_eq_none (lowerChars text)
      (p.tier_c_keywords.map lowerChars)).mp hfind
    rcases hpat : p.tier_c_patterns.find? (fun m => m.2 text) with _ | m
    · have hpany : p.tier_c_patterns.any (fun m => m.2 text) = false := by
        rw [List.any_eq_false]
        intro m hm
        have := List.find?_eq_none.mp hpat m hm
        simpa using this
      rcases ha : ((p.tier_a_keywords.map lowerChars).any
          (fun k => containsSub (lowerChars text) k)) with _ | _ <;>
        simp [hpat, hany, hpany, ha]
    · have hm2 := List.find?_some hpat
      have hpany : p.tier_c_patterns.any (fun m => m.2 text) = true :=
        List.any_eq_true.mpr ⟨m, List.mem_of_find?_eq_some hpat, hm2⟩
      simp [hpat, hany, hpany]
  · have hksome : ((p.tier_c_keywords.map lowerChars).any
        (fun k => !k.isEmpty && containsSub (lowerChars text) k)) = true := by
      rcases h : ((p.tier_c_keywords.map lowerChars).any
          (fun k => !k.isEmpty && containsSub (lowerChars text) k)) with _ | _
      · exact absurd ((findTierCKeyword_eq_none (lowerChars text)
          (p.tier_c_keywords.map lowerChars)).mpr h ▸ hfind) (by simp)
      · rfl
    simp [hfind, hksome]

/-- C7 (amended): for every text and policy configuration, the tier is the
first-match evaluation of the claim with empty tier-C keywords ignored,
`auto_publish_allowed` is true exactly when that tier is not C, and in
particular text containing the tier-C keyword "pricing" yields tier C
even though a tier-A keyword ("thank") is also present. -/
theorem classify_text_first_match :
    (∀ text p, (classify_text text p).tier = amendedTier text p) ∧
    (∀ text p, (classify_text text p).auto_publish_allowed
        = !(amendedTier text p == "C")) ∧
    (classify_text "pricing info, thank you".toList
        ⟨["pricing".toList], [], ["thank".toList]⟩
      = ⟨"C", false, "tier_c_keyword:pricing"⟩) :=
  ⟨fun text p => (classify_characterization text p).1,
   fun text p => (classify_characterization text p).2,
   by decide⟩

/-! ## precedent_memory.py -/

/-- Strict code-point lexicographic order on char lists, Python's `<` on
strings. -/
def charListLt : List Char → List Char → Bool
  | [], [] => false
  | [], _ :: _ => true
  | _ :: _, [] => false
  | a :: as, b :: bs =>
    if a.val < b.val then true
    else if b.val < a.val then false
    else charListLt as bs

/-- Insert into a sorted list, keeping ascending code-point order. -/
def insertStr (x : String) : List String → List String
  | [] => [x]
  | y :: ys => if charListLt y.toList x.toList then y :: insertStr x ys else x :: y :: ys

/-- Python `sorted` on strings (insertion sort by code-point order). -/
def sortStrs : List String → List String
  | [] => []
  | x :: xs => insertStr x (sortStrs xs)

/-- Python `sender.split("@")[-1]`: the segment after the last `@`. -/
def afterLastAt (s : List Char) : List Char :=
  (s.reverse.takeWhile (fun c => c ≠ '@')).reverse

/-- `precedent_memory._make_key`: `domain|sorted-labels|tier` with the
domain lowered (last `@`-segment when `@` occurs, else the whole sender). -/
def make_key (sender : String) (labels : List String) (tier : String) : String :=
  let domain :=
    if sender.toList.contains '@' then String.mk (lowerChars (afterLastAt sender.toList))
    else String.mk (lowerChars sender.toList)
  domain ++ "|" ++ String.intercalate "," (sortStrs labels) ++ "|" ++ tier

/-- Exact fraction standing for a Python float confidence value. Every
fraction the embedded code constructs has a positive denominator; the
comparison helpers assume this. Using explicit numerator/denominator with
integer cross-multiplication keeps every comparison kernel-computable. -/
structure Frac where
  num : ℤ
  den : ℤ
deriving Repr, DecidableEq

/-- `a ≤ b` by cross-multiplication (positive denominators). -/
def Frac.leB (a b : Frac) : Bool := decide (a.num * b.den ≤ b.num * a.den)

/-- `a < b` by cross-multiplication (positive denominators). -/
def Frac.ltB (a b : Frac) : Bool := decide (a.num * b.den < b.num * a.den)

/-- One row of `precedents.jsonl` (fields the lookup reads). -/
structure PrecedentRecord where
  key : String
  decision : String
deriving Repr, DecidableEq

/-- `precedent_memory.PrecedentMatch`. -/
structure PrecedentMatch where
  found : Bool
  decision : String
  confidence : Frac
  key : String
  sample_size : ℕ
deriving Repr, DecidableEq

/-- Occurrences of a decision string in a list. -/
def countOcc (xs : List String) (d : String) : ℕ := (xs.filter (fun x => x == d)).length

/-- Distinct elements in first-occurrence order (insertion order of a
Python `Counter`). -/
def distinctFirstAux (seen : List String) : List String → List String
  | [] => []
  | x :: xs =>
    if seen.contains x then distinctFirstAux seen xs
    else x :: distinctFirstAux (x :: seen) xs

/-- Python `Counter(xs).most_common(1)[0]`: the decision with the largest
count, ties broken by first occurrence. -/
def mostCommon (xs : List String) : Option (String × ℕ) :=
  (distinctFirstAux [] xs).foldl
    (fun acc d =>
      match acc with
      | none => some (d, countOcc xs d)
      | some (bd, bc) => if countOcc xs d > bc then some (d, countOcc xs d) else some (bd, bc))
    none

/-- `precedent_memory.lookup_precedent`: filter rows by key, take the
majority decision, `confidence = majority/total`; `found` only with at
least `min_samples` rows and `confidence ≥ min_confidence`. -/
def lookup_precedent (sender : String) (labels : List String) (tier : String)
    (rows : List PrecedentRecord) (min_confidence : Frac) (min_samples : ℕ) : PrecedentMatch :=
  match mostCommon ((rows.filter
      (fun r => r.key == make_key sender labels tier)).map (fun r => r.decision)) with
  | none => ⟨false, "unknown", ⟨0, 1⟩, make_key sender labels tier, 0⟩
  | some (decision, count) =>
    ⟨decide ((rows.filter (fun r => r.key == make_key sender labels tier)).length ≥ min_samples)
        && min_confidence.leB
            ⟨(count : ℤ), ((rows.filter (fun r => r.key == make_key sender labels tier)).length : ℤ)⟩,
      decision,
      ⟨(count : ℤ), ((rows.filter (fun r => r.key == make_key sender labels tier)).length : ℤ)⟩,
      make_key sender labels tier,
      (rows.filter (fun r => r.key == make_key sender labels tier)).length⟩

/-! ## pipeline_daemon.py: policy_agent -/

/-- `pipeline_daemon._clean_confidence`: non-numeric input falls back to
the default; numeric input is clamped into [0,1]. -/
def clean_confidence (v : Option Frac) (default : Frac) : Frac :=
  match v with
  | none => default
  | some q => if q.ltB ⟨0, 1⟩ then ⟨0, 1⟩ else if Frac.ltB ⟨1, 1⟩ q then ⟨1, 1⟩ else q

/-- The environment default `DRAFT_MIN_CONFIDENCE = 0.65`. -/
def DRAFT_MIN_CONFIDENCE : Frac := ⟨65, 100⟩

/-- The lookup defaults `min_confidence = 0.7`, `min_samples = 2`. -/
def PRECEDENT_MIN_CONFIDENCE : Frac := ⟨7, 10⟩

/-- Result dictionary of `pipeline_daemon.policy_agent` (fields the
pipeline reads). -/
structure PolicyRow where
  needs_human_review : Bool
  reason : String
  confidence : String
  policy_tier : String
  policy_reason : String
  precedent_key : String
  precedent_found : Bool
  precedent_confidence : Frac
  draft_confidence : Frac
deriving Repr, DecidableEq

/-- `has_auto_precedent` in `policy_agent`: a found precedent whose
decision is in `{"approve", "auto_publish"}`. -/
def hasAutoPrecedent (m : PrecedentMatch) : Bool :=
  m.found && (m.decision == "approve" || m.decision == "auto_publish")

/-- The escalation disjunction computed first by `policy_agent`. -/
def policyBase (decision_tier fact_status : String) (qa_pass : Bool)
    (dc min_conf : Frac) : Bool :=
  decision_tier == "C" || !(fact_status == "pass") || !qa_pass || dc.ltB min_conf

/-- The waiver condition of `policy_agent`'s override branch. -/
def policyWaive (decision_tier : String) (m : PrecedentMatch) (dc min_conf : Frac) : Bool :=
  (decision_tier == "A" || decision_tier == "B") && hasAutoPrecedent m && min_conf.leB dc

/-- `needs_human_review` exactly as `policy_agent` computes it: the base
disjunction, overridden to false when the waiver branch fires. -/
def policyNeeds (decision_tier fact_status : String) (qa_pass : Bool)
    (dc min_conf : Frac) (m : PrecedentMatch) : Bool :=
  if policyWaive decision_tier m dc min_conf then false
  else policyBase decision_tier fact_status qa_pass dc min_conf

/-- `pipeline_daemon.policy_agent`: look up the precedent, clean the
draft confidence, escalate on tier C / failed fact gate / failed QA / low
confidence unless the waiver branch fires. -/
def policy_agent (sender : String) (labels : List String)
    (decision_tier decision_reason : String) (draft_confidence_raw : Option Frac)
    (qa_pass : Bool) (fact_status : String)
    (precedents : List PrecedentRecord) (min_conf : Frac) : PolicyRow :=
  ⟨policyNeeds decision_tier fact_status qa_pass
      (clean_confidence draft_confidence_raw ⟨1, 2⟩) min_conf
      (lookup_precedent sender labels decision_tier precedents PRECEDENT_MIN_CONFIDENCE 2),
    if policyNeeds decision_tier fact_status qa_pass
        (clean_confidence draft_confidence_raw ⟨1, 2⟩) min_conf
        (lookup_precedent sender labels decision_tier precedents PRECEDENT_MIN_CONFIDENCE 2)
      then "tier_or_fact_or_qa_or_confidence" else "auto_publish_allowed",
    if policyNeeds decision_tier fact_status qa_pass
        (clean_confidence draft_confidence_raw ⟨1, 2⟩) min_conf
        (lookup_precedent sender labels decision_tier precedents PRECEDENT_MIN_CONFIDENCE 2)
      then "medium" else "high",
    decision_tier, decision_reason,
    (lookup_precedent sender labels decision_tier precedents PRECEDENT_MIN_CONFIDENCE 2).key,
    (lookup_precedent sender labels decision_tier precedents PRECEDENT_MIN_CONFIDENCE 2).found,
    (lookup_precedent sender labels decision_tier precedents PRECEDENT_MIN_CONFIDENCE 2).confidence,
    clean_confidence draft_confidence_raw ⟨1, 2⟩⟩

/-- The review decision exactly as the claim words it: the escalation
disjunction holds and the precedent waiver does not. -/
def claimNeedsReview (decision_tier fact_status : String) (qa_pass : Bool)
    (dc min_conf : Frac) (m : PrecedentMatch) : Bool :=
  (decision_tier == "C" || !(fact_status == "pass") || !qa_pass || dc.ltB min_conf)
    && !((decision_tier == "A" || decision_tier == "B")
          && (m.found && (m.decision == "approve" || m.decision == "auto_publish"))
          && min_conf.leB dc)

/-- C3: the Policy stage sets `needs_human_review` true iff tier is C, or
fact status is not pass, or QA failed, or cleaned draft confidence is
below the configured minimum, except that review is waived for tier A/B
with a found approving precedent and confidence clearing the minimum; in
particular tier B + QA fail + fact pass + confidence 0.9 + no precedent
escalates, and the same inputs with two matching approve precedents waive
review. -/
theorem policy_agent_review_gate :
    (∀ sender labels tier reason conf qa_pass fact_status precedents min_conf,
      (policy_agent sender labels tier reason conf qa_pass fact_status
          precedents min_conf).needs_human_review
        = claimNeedsReview tier fact_status qa_pass (clean_confidence conf ⟨1, 2⟩) min_conf
            (lookup_precedent sender labels tier precedents PRECEDENT_MIN_CONFIDENCE 2)) ∧
    ((policy_agent "ops@example.com" ["support"] "B" "tier_b_safe_operational_default"
        (some ⟨9, 10⟩) false "pass" [] DRAFT_MIN_CONFIDENCE).needs_human_review = true) ∧
    ((policy_agent "ops@example.com" ["support"] "B" "tier_b_safe_operational_default"
        (some ⟨9, 10⟩) false "pass"
        [⟨"example.com|support|B", "approve"⟩, ⟨"example.com|support|B", "approve"⟩]
        DRAFT_MIN_CONFIDENCE).needs_human_review = false) := by
  refine ⟨?_, by decide, by decide⟩
  intro sender labels tier reason conf qa_pass fact_status precedents min_conf
  show policyNeeds tier fact_status qa_pass (clean_confidence conf ⟨1, 2⟩) min_conf
      (lookup_precedent sender labels tier precedents PRECEDENT_MIN_CONFIDENCE 2) = _
  unfold policyNeeds claimNeedsReview policyWaive policyBase hasAutoPrecedent
  cases h : ((tier == "A" || tier == "B")
      && ((lookup_precedent sender labels tier precedents PRECEDENT_MIN_CONFIDENCE 2).found
          && ((lookup_precedent sender labels tier precedents
                PRECEDENT_MIN_CONFIDENCE 2).decision == "approve"
              || (lookup_precedent sender labels tier precedents
                    PRECEDENT_MIN_CONFIDENCE 2).decision == "auto_publish"))
      && Frac.leB min_conf (clean_confidence conf ⟨1, 2⟩)) <;> simp

/-! ## pipeline_daemon.py: the remaining agents

Timestamps (`_now()` ISO strings) and the threading-metadata passthrough
keys are omitted from the rows: no claim mentions them, and they are
copied identically by every execution path compared here. -/

/-- An inbound work order (fields the pipeline reads). -/
structure WorkOrder where
  id : String
  sender : String
  subject : String
  body : String
  labels : List String
deriving Repr, DecidableEq

/-- `context_agent`'s assembled context pack (fields that vary per work
order; the fixed diagnostic strings are omitted). -/
structure ContextRow where
  work_order_id : String
  sender : String
  subject : String
  labels : List String
  master_status : String
  crm_enriched_fields : List (String × String)
deriving Repr, DecidableEq

/-- `pipeline_daemon.context_agent`. -/
def context_agent (wo : WorkOrder) : ContextRow :=
  ⟨wo.id, wo.sender, wo.subject, wo.labels, "partial", []⟩

/-- The env default `SIGNATURE_BLOCK`. -/
def SIGNATURE_BLOCK : String := "Best,\nYaakov\nyaakov@tapdash.co"

/-- A draft dictionary as produced by `draft_agent`. -/
structure DraftRow where
  work_order_id : String
  toAddr : String
  draft_subject : String
  draft_body : String
  status : String
  draft_agent : String
  confidence : Frac
  citations : List String
  rationale : String
deriving Repr, DecidableEq

/-- `pipeline_daemon._build_template_draft`: deterministic fallback draft
keyed by tier, confidence 0.8, provenance tag `template_fallback`. -/
def build_template_draft (wo : WorkOrder) (policy_tier : String) : DraftRow :=
  ⟨wo.id, wo.sender, "Re: " ++ wo.subject,
    if policy_tier == "A" then
      "Hi " ++ wo.sender
        ++ ",\n\nThanks for reaching out. We received your message. "
        ++ "Please share two or three time windows this week and we will confirm one.\n\n"
        ++ SIGNATURE_BLOCK
    else
      "Hi " ++ wo.sender
        ++ ",\n\nThanks for reaching out. We received your message and can help with next steps. "
        ++ "Share your goal and preferred timeline, and we will route this to the right team.\n\n"
        ++ SIGNATURE_BLOCK,
    "draft", "template_fallback", ⟨8, 10⟩, [],
    "Fallback template used because LLM drafting was unavailable."⟩

/-- `pipeline_daemon.draft_agent`. The external LLM call is an oracle
parameter: `none` stands for no configured `OPENAI_API_KEY`; an oracle
returning `none` stands for `_openai_draft` raising, which falls back to
the template with an amended rationale. -/
def draft_agent (oracle : Option (WorkOrder → ContextRow → String → Option DraftRow))
    (wo : WorkOrder) (ctx : ContextRow) (policy_tier : String) : DraftRow :=
  match oracle with
  | none => build_template_draft wo policy_tier
  | some f =>
    match f wo ctx policy_tier with
    | some d => d
    | none =>
      { build_template_draft wo policy_tier with
          rationale := "Fallback template used after LLM draft error." }

/-- Result of `tone_agent`: the draft dictionary plus tone fields
(`tone_checked = dict(draft)` then updates). -/
structure ToneRow where
  draft : DraftRow
  tone_ok : Bool
  tone_notes : String
  revised_draft : String
deriving Repr, DecidableEq

/-- `pipeline_daemon.tone_agent`: replace em dashes with hyphens, note
whether a correction was applied, `tone_ok` always true. -/
def tone_agent (draft : DraftRow) : ToneRow :=
  ⟨draft, true,
    if draft.draft_body.toList.contains '—' then
      "Professional, concise, friendly undertone. No em-dashes. Replaced em dash with hyphen."
    else "Professional, concise, friendly undertone. No em-dashes.",
    if draft.draft_body.toList.contains '—' then
      String.mk (draft.draft_body.toList.map (fun c => if c = '—' then '-' else c))
    else draft.draft_body⟩

/-- Result of `fact_agent`: the tone-checked dictionary plus fact fields. -/
structure FactRow where
  tone : ToneRow
  fact_status : String
  fact_notes : List String
  citations : List String
deriving Repr, DecidableEq

/-- `pipeline_daemon.fact_agent`: tier C forces `needs_review`; otherwise
pass, attaching a default citation when the draft has none. -/
def fact_agent (tone : ToneRow) (decision_tier : String) (wo_id : String) : FactRow :=
  if decision_tier == "C" then
    ⟨tone, "needs_review",
      ["High-risk claim category detected by policy tier C.",
        "Human review required for pricing/legal/security/compliance claims."],
      tone.draft.citations⟩
  else
    ⟨tone, "pass", ["No high-risk factual claims detected by tier policy."],
      if tone.draft.citations.isEmpty then ["work_orders.jsonl:work_order_id=" ++ wo_id]
      else tone.draft.citations⟩

/-- Result of `qa_agent`: the draft dictionary plus QA fields. -/
structure QARow where
  draft : DraftRow
  qa_score : ℤ
  qa_pass : Bool
  qa_status : String
  qa_reasons : List String
  qa_fallback_used : Bool
deriving Repr, DecidableEq

/-- `round(confidence * 100)` for a cleaned (non-negative) confidence,
modelled as round-half-up; Python rounds half to even, which differs only
at exact midpoints no claim exercises. -/
def qaScore (c : Frac) : ℤ := (200 * c.num + c.den) / (2 * c.den)

/-- The cleaned confidence `qa_agent` and `policy_agent` derive from the
draft (`_clean_confidence(draft.get("confidence"), 0.5)`). -/
def qaConfidence (draft : DraftRow) : Frac := clean_confidence (some draft.confidence) ⟨1, 2⟩

/-- `qa_pass = tone_ok and confidence >= 0.5`. -/
def qaPass (draft : DraftRow) (tone : ToneRow) : Bool :=
  tone.tone_ok && Frac.leB ⟨1, 2⟩ (qaConfidence draft)

/-- `pipeline_daemon.qa_agent` (the three-argument revision in
`pipeline_daemon.py`, which also matches the spec's QA contract: pass
requires `tone_ok` and confidence ≥ 0.5, score is `round(conf*100)`,
itemized reasons from tone and fact gates). -/
def qa_agent (draft : DraftRow) (tone : ToneRow) (fact : FactRow) : QARow :=
  ⟨draft, qaScore (qaConfidence draft), qaPass draft tone,
    if qaPass draft tone then "pass" else "needs_review",
    (if tone.tone_ok then ["style_compliant"] else ["style_violation"])
      ++ (if fact.fact_status == "pass" then ["fact_gate_pass"] else ["fact_gate_needs_review"]),
    !(draft.draft_agent == "openai")⟩

/-- The provenance block of a publish payload. -/
structure Provenance where
  policy_tier : String
  qa_status : String
  fact_status : String
  draft_agent : String
  draft_confidence : Frac
  auto_send_enabled : Bool
deriving Repr, DecidableEq

/-- A publish payload row (`draft_publish_payloads.jsonl` row /
`publish_queue` payload). -/
structure PublishRow where
  work_order_id : String
  toAddr : String
  subject : String
  body : String
  provenance : Provenance
  send : Bool
deriving Repr, DecidableEq

/-- `pipeline_daemon.publish_agent`: `None` whenever the Policy result
needs human review, otherwise the publish payload. -/
def publish_agent (wo : WorkOrder) (draft : DraftRow) (tone : ToneRow)
    (qa : QARow) (fact : FactRow) (policy : PolicyRow) (auto_send_enabled : Bool) :
    Option PublishRow :=
  if policy.needs_human_review then none
  else
    some ⟨wo.id, draft.toAddr, draft.draft_subject, tone.revised_draft,
      ⟨policy.policy_tier, qa.qa_status, fact.fact_status, draft.draft_agent,
        policy.draft_confidence, auto_send_enabled⟩,
      auto_send_enabled⟩

/-! ## Pipeline configuration and the daemon composition
(`pipeline_daemon.process_work_order`) -/

/-- Process-wide configuration: the loaded escalation policy triggers,
the drafting oracle (`OPENAI_API_KEY` presence and call outcome), the
precedent log contents, `DRAFT_MIN_CONFIDENCE`, `AUTO_SEND_ENABLED`. -/
structure PipelineCfg where
  triggers : PolicyTriggers
  draftOracle : Option (WorkOrder → ContextRow → String → Option DraftRow)
  precedents : List PrecedentRecord
  min_conf : Frac
  auto_send_enabled : Bool

/-- The classification both the daemon and the Tier stage perform on
`f"{subject} {sender}"`. -/
def classifyWO (cfg : PipelineCfg) (wo : WorkOrder) : PolicyDecision :=
  classify_text (wo.subject ++ " " ++ wo.sender).toList cfg.triggers

/-- The draft computed in `process_work_order`. -/
def daemonDraft (cfg : PipelineCfg) (wo : WorkOrder) : DraftRow :=
  draft_agent cfg.draftOracle wo (context_agent wo) (classifyWO cfg wo).tier

/-- The tone-checked row computed in `process_work_order`. -/
def daemonTone (cfg : PipelineCfg) (wo : WorkOrder) : ToneRow :=
  tone_agent (daemonDraft cfg wo)

/-- The fact-checked row computed in `process_work_order` (the daemon
passes the tone-checked row as `draft`). -/
def daemonFact (cfg : PipelineCfg) (wo : WorkOrder) : FactRow :=
  fact_agent (daemonTone cfg wo) (classifyWO cfg wo).tier wo.id

/-- The QA row computed in `process_work_order`. -/
def daemonQA (cfg : PipelineCfg) (wo : WorkOrder) : QARow :=
  qa_agent (daemonDraft cfg wo) (daemonTone cfg wo) (daemonFact cfg wo)

/-- The policy row computed in `process_work_order`. -/
def daemonPolicy (cfg : PipelineCfg) (wo : WorkOrder) : PolicyRow :=
  policy_agent wo.sender wo.labels (classifyWO cfg wo).tier (classifyWO cfg wo).reason
    (some (daemonDraft cfg wo).confidence) (daemonQA cfg wo).qa_pass
    (daemonFact cfg wo).fact_status cfg.precedents cfg.min_conf

/-- The optional publish row computed in `process_work_order`. -/
def daemonPublish (cfg : PipelineCfg) (wo : WorkOrder) : Option PublishRow :=
  publish_agent wo (daemonDraft cfg wo) (daemonTone cfg wo) (daemonQA cfg wo)
    (daemonFact cfg wo) (daemonPolicy cfg wo) cfg.auto_send_enabled

/-- The summary dictionary `process_work_order` returns. -/
structure DaemonSummary where
  work_order_id : String
  policy_tier : String
  needs_human_review : Bool
deriving Repr, DecidableEq

/-- `pipeline_daemon.process_work_order`, reduced to its observable
outcome: the summary and the rows appended to
`draft_publish_payloads.jsonl` (one when `publish_agent` returned a row,
none otherwise). -/
def process_work_order (cfg : PipelineCfg) (wo : WorkOrder) :
    DaemonSummary × List PublishRow :=
  (⟨wo.id, (classifyWO cfg wo).tier, (daemonPolicy cfg wo).needs_human_review⟩,
    match daemonPublish cfg wo with
    | some row => [row]
    | none => [])

/-! ## orchestrator/stages.py and the three executors -/

/-- The Publish stage's recorded payload: either the publish row or the
`{"status": "skipped", "reason": "needs_human_review"}` marker. -/
inductive PublishSlot where
  | payload (row : PublishRow)
  | skipped
deriving Repr, DecidableEq

/-- `orchestrator.stages.StageContext`: the work order plus the per-run
state map, one optional slot per stage key. An executor only reads a slot
after the stage that writes it has run (a missing key would be a Python
`KeyError`); the `missing*` defaults below are therefore never reached in
the compositions compared here. -/
structure StageCtx where
  work_order : WorkOrder
  decision : Option PolicyDecision
  context : Option ContextRow
  draft : Option DraftRow
  tone : Option ToneRow
  fact : Option FactRow
  qa : Option QARow
  policy : Option PolicyRow
  publish : Option PublishSlot
deriving Repr, DecidableEq

/-- Unreachable default for a missing `decision` key. -/
def missingDecision : PolicyDecision := ⟨"", false, ""⟩

/-- Unreachable default for a missing `context` key. -/
def missingContext : ContextRow := ⟨"", "", "", [], "", []⟩

/-- Unreachable default for a missing `draft` key. -/
def missingDraft : DraftRow := ⟨"", "", "", "", "", "", ⟨0, 1⟩, [], ""⟩

/-- Unreachable default for a missing `tone` key. -/
def missingTone : ToneRow := ⟨missingDraft, false, "", ""⟩

/-- Unreachable default for a missing `fact` key. -/
def missingFact : FactRow := ⟨missingTone, "", [], []⟩

/-- Unreachable default for a missing `qa` key. -/
def missingQA : QARow := ⟨missingDraft, 0, false, "", [], false⟩

/-- Unreachable default for a missing `policy` key. -/
def missingPolicy : PolicyRow := ⟨false, "", "", "", "", "", false, ⟨0, 1⟩, ⟨0, 1⟩⟩

/-- A stage result's payload (`StageResult.payload`), tagged by stage. -/
inductive StagePayload where
  | decisionP (tier reason : String)
  | contextP (c : ContextRow)
  | draftP (d : DraftRow)
  | toneP (t : ToneRow)
  | factP (f : FactRow)
  | qaP (q : QARow)
  | policyP (p : PolicyRow)
  | publishP (s : PublishSlot)
deriving Repr, DecidableEq

/-- `orchestrator.models.StageResult` (timestamp omitted). -/
structure StageResultM where
  stage : String
  payload : StagePayload
  status : String
  needs_human_review : Bool
deriving Repr, DecidableEq

/-- `TierStage.run`. -/
def tierStageRun (cfg : PipelineCfg) (ctx : StageCtx) : StageCtx × StageResultM :=
  ({ ctx with decision := some (classifyWO cfg ctx.work_order) },
    ⟨"tier", .decisionP (classifyWO cfg ctx.work_order).tier (classifyWO cfg ctx.work_order).reason,
      "ok", false⟩)

/-- `ContextStage.run`. -/
def contextStageRun (ctx : StageCtx) : StageCtx × StageResultM :=
  ({ ctx with context := some (context_agent ctx.work_order) },
    ⟨"context", .contextP (context_agent ctx.work_order), "ok", false⟩)

/-- `DraftStage.run`. -/
def draftStageRun (cfg : PipelineCfg) (ctx : StageCtx) : StageCtx × StageResultM :=
  ({ ctx with draft := some (draft_agent cfg.draftOracle ctx.work_order
      (ctx.context.getD missingContext) (ctx.decision.getD missingDecision).tier) },
    ⟨"draft", .draftP (draft_agent cfg.draftOracle ctx.work_order
      (ctx.context.getD missingContext) (ctx.decision.getD missingDecision).tier), "ok", false⟩)

/-- `ToneStage.run`. -/
def toneStageRun (ctx : StageCtx) : StageCtx × StageResultM :=
  ({ ctx with tone := some (tone_agent (ctx.draft.getD missingDraft)) },
    ⟨"tone", .toneP (tone_agent (ctx.draft.getD missingDraft)), "ok", false⟩)

/-- `FactStage.run`. -/
def factStageRun (ctx : StageCtx) : StageCtx × StageResultM :=
  ({ ctx with fact := some (fact_agent (ctx.tone.getD missingTone)
      (ctx.decision.getD missingDecision).tier ctx.work_order.id) },
    ⟨"fact", .factP (fact_agent (ctx.tone.getD missingTone)
      (ctx.decision.getD missingDecision).tier ctx.work_order.id), "ok", false⟩)

/-- `QAStage.run`. The `qa_agent` revision this stage calls (taking the
work order as well) is not in the repository snapshot; its QA verdict is
modelled from the spec, which coincides with `pipeline_daemon.qa_agent`
on the fields used here. The stage flags review when `qa_status` is not
"pass". -/
def qaStageRun (ctx : StageCtx) : StageCtx × StageResultM :=
  ({ ctx with qa := some (qa_agent (ctx.draft.getD missingDraft)
      (ctx.tone.getD missingTone) (ctx.fact.getD missingFact)) },
    ⟨"qa", .qaP (qa_agent (ctx.draft.getD missingDraft)
      (ctx.tone.getD missingTone) (ctx.fact.getD missingFact)), "ok",
      !((qa_agent (ctx.draft.getD missingDraft) (ctx.tone.getD missingTone)
          (ctx.fact.getD missingFact)).qa_status == "pass")⟩)

/-- `PolicyStage.run`. -/
def policyStageRun (cfg : PipelineCfg) (ctx : StageCtx) : StageCtx × StageResultM :=
  ({ ctx with policy := some (policy_agent ctx.work_order.sender ctx.work_order.labels
      (ctx.decision.getD missingDecision).tier (ctx.decision.getD missingDecision).reason
      (some (ctx.draft.getD missingDraft).confidence) (ctx.qa.getD missingQA).qa_pass
      (ctx.fact.getD missingFact).fact_status cfg.precedents cfg.min_conf) },
    ⟨"policy", .policyP (policy_agent ctx.work_order.sender ctx.work_order.labels
      (ctx.decision.getD missingDecision).tier (ctx.decision.getD missingDecision).reason
      (some (ctx.draft.getD missingDraft).confidence) (ctx.qa.getD missingQA).qa_pass
      (ctx.fact.getD missingFact).fact_status cfg.precedents cfg.min_conf), "ok",
      (policy_agent ctx.work_order.sender ctx.work_order.labels
        (ctx.decision.getD missingDecision).tier (ctx.decision.getD missingDecision).reason
        (some (ctx.draft.getD missingDraft).confidence) (ctx.qa.getD missingQA).qa_pass
        (ctx.fact.getD missingFact).fact_status cfg.precedents cfg.min_conf).needs_human_review⟩)

/-- The slot `PublishStage.run` stores: the row from `publish_agent`, or
the skipped marker when it returned `None`. -/
def publishStageSlot (cfg : PipelineCfg) (ctx : StageCtx) : PublishSlot :=
  match publish_agent ctx.work_order (ctx.draft.getD missingDraft) (ctx.tone.getD missingTone)
      (ctx.qa.getD missingQA) (ctx.fact.getD missingFact) (ctx.policy.getD missingPolicy)
      cfg.auto_send_enabled with
  | some row => .payload row
  | none => .skipped

/-- `PublishStage.run`. -/
def publishStageRun (cfg : PipelineCfg) (ctx : StageCtx) : StageCtx × StageResultM :=
  ({ ctx with publish := some (publishStageSlot cfg ctx) },
    ⟨"publish", .publishP (publishStageSlot cfg ctx), "ok", false⟩)

/-- `swarm_langgraph.state.SwarmState`. `output` is the node-written
`{"publish": ctx.state.get("publish")}` dictionary (`none` = not yet
written). -/
structure SwarmStateM where
  ctx : StageCtx
  last_result : Option StageResultM
  halt : Bool
  run_status : String
  error : Option String
  output : Option (Option PublishSlot)
deriving Repr, DecidableEq

/-- `SwarmNodes.tier_agent`. -/
def tierNode (cfg : PipelineCfg) (s : SwarmStateM) : SwarmStateM :=
  { s with ctx := (tierStageRun cfg s.ctx).1, last_result := some (tierStageRun cfg s.ctx).2 }

/-- `SwarmNodes.context_agent`. -/
def contextNode (s : SwarmStateM) : SwarmStateM :=
  { s with ctx := (contextStageRun s.ctx).1, last_result := some (contextStageRun s.ctx).2 }

/-- `SwarmNodes.draft_agent`. -/
def draftNode (cfg : PipelineCfg) (s : SwarmStateM) : SwarmStateM :=
  { s with ctx := (draftStageRun cfg s.ctx).1, last_result := some (draftStageRun cfg s.ctx).2 }

/-- `SwarmNodes.tone_agent`. -/
def toneNode (s : SwarmStateM) : SwarmStateM :=
  { s with ctx := (toneStageRun s.ctx).1, last_result := some (toneStageRun s.ctx).2 }

/-- `SwarmNodes.fact_agent`. -/
def factNode (s : SwarmStateM) : SwarmStateM :=
  { s with ctx := (factStageRun s.ctx).1, last_result := some (factStageRun s.ctx).2 }

/-- `SwarmNodes.qa_agent`. -/
def qaNode (s : SwarmStateM) : SwarmStateM :=
  { s with ctx := (qaStageRun s.ctx).1, last_result := some (qaStageRun s.ctx).2 }

/-- `SwarmNodes.policy_agent`: additionally sets `halt` and `run_status`
from the stage result's review flag. -/
def policyNode (cfg : PipelineCfg) (s : SwarmStateM) : SwarmStateM :=
  { s with
      ctx := (policyStageRun cfg s.ctx).1
      last_result := some (policyStageRun cfg s.ctx).2
      halt := (policyStageRun cfg s.ctx).2.needs_human_review
      run_status := if (policyStageRun cfg s.ctx).2.needs_human_review
        then "needs_human_review" else "running" }

/-- `SwarmNodes.publish_agent`: additionally writes the `output`
dictionary; `run_status` is re-emitted unchanged. -/
def publishNode (cfg : PipelineCfg) (s : SwarmStateM) : SwarmStateM :=
  { s with
      ctx := (publishStageRun cfg s.ctx).1
      last_result := some (publishStageRun cfg s.ctx).2
      output := some (publishStageRun cfg s.ctx).1.publish }

/-- Run node functions in order, stopping as soon as the updated state
has `halt` set (`FallbackSwarmGraph.invoke`'s loop). -/
def runWithHalt : List (SwarmStateM → SwarmStateM) → SwarmStateM → SwarmStateM
  | [], s => s
  | f :: fs, s =>
    if (f s).halt then f s else runWithHalt fs (f s)

/-- `FallbackSwarmGraph.invoke`: the fixed node order with the early-halt
check after every node. -/
def fallback_invoke (cfg : PipelineCfg) (s : SwarmStateM) : SwarmStateM :=
  runWithHalt [tierNode cfg, contextNode, draftNode cfg, toneNode,
    factNode, qaNode, policyNode cfg, publishNode cfg] s

/-- The compiled LangGraph graph, modelled from the edge declarations in
`build_swarm_graph`: the linear chain tier → context → draft → tone →
fact → qa → policy, then `route_after_policy` ends the run when `halt` is
set and otherwise runs publish. -/
def langgraph_invoke (cfg : PipelineCfg) (s : SwarmStateM) : SwarmStateM :=
  if (policyNode cfg (qaNode (factNode (toneNode (draftNode cfg
      (contextNode (tierNode cfg s))))))).halt then
    policyNode cfg (qaNode (factNode (toneNode (draftNode cfg (contextNode (tierNode cfg s))))))
  else
    publishNode cfg (policyNode cfg (qaNode (factNode (toneNode (draftNode cfg
      (contextNode (tierNode cfg s)))))))

/-- The initial `SwarmState` built by `SwarmSupervisor.run_work_order`. -/
def initState (wo : WorkOrder) : SwarmStateM :=
  ⟨⟨wo, none, none, none, none, none, none, none, none⟩, none, false, "running", none, none⟩

/-- Outcome of `DurableOrchestrator.run_work_order` (the legacy
sequential orchestrator): the final context, the appended stage results
in order, and the finished run's status and current stage. -/
structure LegacyOutcome where
  ctx : StageCtx
  results : List StageResultM
  status : String
  current_stage : String
deriving Repr, DecidableEq

/-- The context after the seven stages up to Policy, shared by every
executor. -/
def ctxSeven (cfg : PipelineCfg) (wo : WorkOrder) : StageCtx :=
  (policyStageRun cfg (qaStageRun (factStageRun (toneStageRun (draftStageRun cfg
    (contextStageRun (tierStageRun cfg ⟨wo, none, none, none, none, none, none, none, none⟩).1).1).1).1).1).1).1

/-- `DurableOrchestrator.run_work_order` over `default_legacy_stages`:
run all eight stages unconditionally, append every result, flag review
from the qa/policy results, finish with `current_stage = "publish"`. -/
def legacy_run (cfg : PipelineCfg) (wo : WorkOrder) : LegacyOutcome :=
  ⟨(publishStageRun cfg (ctxSeven cfg wo)).1,
    [(tierStageRun cfg ⟨wo, none, none, none, none, none, none, none, none⟩).2,
      (contextStageRun (tierStageRun cfg ⟨wo, none, none, none, none, none, none, none, none⟩).1).2,
      (draftStageRun cfg (contextStageRun (tierStageRun cfg
        ⟨wo, none, none, none, none, none, none, none, none⟩).1).1).2,
      (toneStageRun (draftStageRun cfg (contextStageRun (tierStageRun cfg
        ⟨wo, none, none, none, none, none, none, none, none⟩).1).1).1).2,
      (factStageRun (toneStageRun (draftStageRun cfg (contextStageRun (tierStageRun cfg
        ⟨wo, none, none, none, none, none, none, none, none⟩).1).1).1).1).2,
      (qaStageRun (factStageRun (toneStageRun (draftStageRun cfg (contextStageRun (tierStageRun cfg
        ⟨wo, none, none, none, none, none, none, none, none⟩).1).1).1).1).1).2,
      (policyStageRun cfg (qaStageRun (factStageRun (toneStageRun (draftStageRun cfg
        (contextStageRun (tierStageRun cfg
          ⟨wo, none, none, none, none, none, none, none, none⟩).1).1).1).1).1).1).2,
      (publishStageRun cfg (ctxSeven cfg wo)).2],
    if (qaStageRun (factStageRun (toneStageRun (draftStageRun cfg (contextStageRun (tierStageRun cfg
          ⟨wo, none, none, none, none, none, none, none, none⟩).1).1).1).1).1).2.needs_human_review
        || (policyStageRun cfg (qaStageRun (factStageRun (toneStageRun (draftStageRun cfg
          (contextStageRun (tierStageRun cfg
            ⟨wo, none, none, none, none, none, none, none, none⟩).1).1).1).1).1).1).2.needs_human_review
      then "needs_human_review" else "completed",
    "publish"⟩

lemma tierNode_halt (cfg : PipelineCfg) (s : SwarmStateM) :
    (tierNode cfg s).halt = s.halt := rfl

lemma contextNode_halt (s : SwarmStateM) : (contextNode s).halt = s.halt := rfl

lemma draftNode_halt (cfg : PipelineCfg) (s : SwarmStateM) :
    (draftNode cfg s).halt = s.halt := rfl

lemma toneNode_halt (s : SwarmStateM) : (toneNode s).halt = s.halt := rfl

lemma factNode_halt (s : SwarmStateM) : (factNode s).halt = s.halt := rfl

lemma qaNode_halt (s : SwarmStateM) : (qaNode s).halt = s.halt := rfl

lemma publishNode_halt (cfg : PipelineCfg) (s : SwarmStateM) :
    (publishNode cfg s).halt = s.halt := rfl

/-- The swarm state after the seven nodes up to Policy. -/
def swarmSeven (cfg : PipelineCfg) (wo : WorkOrder) : SwarmStateM :=
  policyNode cfg (qaNode (factNode (toneNode (draftNode cfg
    (contextNode (tierNode cfg (initState wo)))))))

lemma fallback_invoke_cases (cfg : PipelineCfg) (wo : WorkOrder) :
    fallback_invoke cfg (initState wo)
      = if (swarmSeven cfg wo).halt then swarmSeven cfg wo
        else publishNode cfg (swarmSeven cfg wo) := by
  simp [fallback_invoke, runWithHalt, swarmSeven, tierNode_halt, contextNode_halt,
    draftNode_halt, toneNode_halt, factNode_halt, qaNode_halt, publishNode_halt, initState]

lemma langgraph_invoke_cases (cfg : PipelineCfg) (wo : WorkOrder) :
    langgraph_invoke cfg (initState wo)
      = if (swarmSeven cfg wo).halt then swarmSeven cfg wo
        else publishNode cfg (swarmSeven cfg wo) := rfl

lemma swarmSeven_ctx (cfg : PipelineCfg) (wo : WorkOrder) :
    (swarmSeven cfg wo).ctx = ctxSeven cfg wo := rfl

lemma fallback_halt (cfg : PipelineCfg) (wo : WorkOrder) :
    (fallback_invoke cfg (initState wo)).halt = (swarmSeven cfg wo).halt := by
  rw [fallback_invoke_cases]
  cases hc : (swarmSeven cfg wo).halt <;> simp [hc, publishNode_halt]

lemma publish_agent_none_of_review (wo : WorkOrder) (draft : DraftRow) (tone : ToneRow)
    (qa : QARow) (fact : FactRow) (policy : PolicyRow) (auto_send : Bool)
    (h : policy.needs_human_review = true) :
    publish_agent wo draft tone qa fact policy auto_send = none := by
  simp [publish_agent, h]

lemma publishStageSlot_skipped (cfg : PipelineCfg) (ctx : StageCtx)
    (h : (ctx.policy.getD missingPolicy).needs_human_review = true) :
    publishStageSlot cfg ctx = .skipped := by
  unfold publishStageSlot
  rw [publish_agent_none_of_review _ _ _ _ _ _ _ h]

lemma ctxSeven_policy_needs (cfg : PipelineCfg) (wo : WorkOrder) :
    ((ctxSeven cfg wo).policy.getD missingPolicy).needs_human_review
      = (swarmSeven cfg wo).halt := rfl

/-- C1: whenever the upstream Policy result has `needs_human_review=true`,
`publish_agent` returns `None`; `PublishStage.run` records only the
skipped marker in the stage result and the context's publish slot; and
`process_work_order` appends no publish payload row. -/
theorem publish_emits_nothing_on_review :
    (∀ wo draft tone qa fact policy auto_send,
      (policy : PolicyRow).needs_human_review = true →
        publish_agent wo draft tone qa fact policy auto_send = none) ∧
    (∀ cfg ctx, ((ctx : StageCtx).policy.getD missingPolicy).needs_human_review = true →
        (publishStageRun cfg ctx).2.payload = .publishP .skipped ∧
        (publishStageRun cfg ctx).1.publish = some .skipped) ∧
    (∀ cfg wo, (daemonPolicy cfg wo).needs_human_review = true →
        (process_work_order cfg wo).2 = []) := by
  refine ⟨publish_agent_none_of_review, fun cfg ctx h => ?_, fun cfg wo h => ?_⟩
  · rw [publishStageRun, publishStageSlot_skipped cfg ctx h]
    exact ⟨rfl, rfl⟩
  · unfold process_work_order daemonPublish
    rw [publish_agent_none_of_review _ _ _ _ _ _ _ h]

/-- The tier-C example configuration: "pricing" as the only tier-C
keyword, no patterns, no tier-A keywords, no drafting oracle, no
precedents, default confidence minimum, auto-send on. -/
def exCfg : PipelineCfg := ⟨⟨["pricing".toList], [], []⟩, none, [], ⟨65, 100⟩, true⟩

/-- A configuration with no triggers at all: every work order classifies
tier B and (template confidence 0.8) publishes. -/
def exCfgB : PipelineCfg := ⟨⟨[], [], []⟩, none, [], ⟨65, 100⟩, true⟩

/-- A pricing work order: tier C under `exCfg`, so Policy halts. -/
def exWO : WorkOrder :=
  ⟨"wo_c4", "person@example.com", "pricing question", "Need pricing.", ["support"]⟩

/-- C1 witness: on the concrete tier-C run, the policy row needs review,
`publish_agent` returns none, the stage records the skipped marker, and
the daemon appends no publish row. -/
theorem publish_emits_nothing_on_review_witness :
    ((daemonPolicy exCfg exWO).needs_human_review = true ∧
      publish_agent exWO (daemonDraft exCfg exWO) (daemonTone exCfg exWO)
        (daemonQA exCfg exWO) (daemonFact exCfg exWO) (daemonPolicy exCfg exWO) true = none) ∧
    (((ctxSeven exCfg exWO).policy.getD missingPolicy).needs_human_review = true ∧
      (publishStageRun exCfg (ctxSeven exCfg exWO)).2.payload = .publishP .skipped) ∧
    (process_work_order exCfg exWO).2 = [] :=
  ⟨⟨by decide,
    publish_emits_nothing_on_review.1 exWO (daemonDraft exCfg exWO) (daemonTone exCfg exWO)
      (daemonQA exCfg exWO) (daemonFact exCfg exWO) (daemonPolicy exCfg exWO) true (by decide)⟩,
   ⟨by decide,
    (publish_emits_nothing_on_review.2.1 exCfg (ctxSeven exCfg exWO) (by decide)).1⟩,
   publish_emits_nothing_on_review.2.2 exCfg exWO (by decide)⟩

/-- C4 counterexample: on the pricing work order the Policy stage halts;
the fallback executor then never runs Publish (no publish key in the
final context) while the legacy sequential orchestrator, which runs all
stages, records the skipped publish marker — the two final contexts
differ, refuting "identical observable state". -/
theorem fallback_vs_legacy_counterexample :
    (legacy_run exCfg exWO).ctx.publish = some .skipped ∧
    (fallback_invoke exCfg (initState exWO)).ctx.publish = none ∧
    (legacy_run exCfg exWO).ctx ≠ (fallback_invoke exCfg (initState exWO)).ctx := by
  refine ⟨by decide, by decide, ?_⟩
  intro h
  have := congrArg StageCtx.publish h
  revert this
  decide

/-- C4 (amended): the sequential fallback executor and the compiled
LangGraph graph produce identical final states on every run; the legacy
sequential orchestrator produces the same final context whenever Policy
does not halt, and when Policy halts it differs exactly by additionally
recording the skipped publish marker. -/
theorem executor_refinement :
    (∀ cfg wo, fallback_invoke cfg (initState wo) = langgraph_invoke cfg (initState wo)) ∧
    (∀ cfg wo, (fallback_invoke cfg (initState wo)).halt = false →
      (legacy_run cfg wo).ctx = (fallback_invoke cfg (initState wo)).ctx) ∧
    (∀ cfg wo, (fallback_invoke cfg (initState wo)).halt = true →
      (legacy_run cfg wo).ctx
        = { (fallback_invoke cfg (initState wo)).ctx with publish := some .skipped }) := by
  refine ⟨fun cfg wo => ?_, fun cfg wo h => ?_, fun cfg wo h => ?_⟩
  · rw [fallback_invoke_cases, langgraph_invoke_cases]
  · have hc : (swarmSeven cfg wo).halt = false :=
      ((fallback_halt cfg wo).symm.trans h)
    rw [fallback_invoke_cases, hc]
    simp only [Bool.false_eq_true, if_false]
    rfl
  · have hc : (swarmSeven cfg wo).halt = true :=
      ((fallback_halt cfg wo).symm.trans h)
    have hslot : publishStageSlot cfg (ctxSeven cfg wo) = .skipped :=
      publishStageSlot_skipped cfg (ctxSeven cfg wo)
        ((ctxSeven_policy_needs cfg wo).trans hc)
    rw [fallback_invoke_cases, hc]
    simp only [if_true]
    show (publishStageRun cfg (ctxSeven cfg wo)).1
      = { (swarmSeven cfg wo).ctx with publish := some .skipped }
    rw [publishStageRun, hslot]
    rfl

/-- C4 witness: the executor correspondences applied at the concrete
tier-B (non-halting) and tier-C (halting) runs. -/
theorem executor_refinement_witness :
    fallback_invoke exCfgB (initState exWO) = langgraph_invoke exCfgB (initState exWO) ∧
    ((fallback_invoke exCfgB (initState exWO)).halt = false ∧
      (legacy_run exCfgB exWO).ctx = (fallback_invoke exCfgB (initState exWO)).ctx) ∧
    ((fallback_invoke exCfg (initState exWO)).halt = true ∧
      (legacy_run exCfg exWO).ctx
        = { (fallback_invoke exCfg (initState exWO)).ctx with publish := some .skipped }) :=
  ⟨executor_refinement.1 exCfgB exWO,
   ⟨by decide, executor_refinement.2.1 exCfgB exWO (by decide)⟩,
   ⟨by decide, executor_refinement.2.2 exCfg exWO (by decide)⟩⟩

/-! ## swarm_langgraph/queue.py -/

/-- `SwarmJob` of the in-memory queue. The job has no `available_at`
field; `payload["last_error"]` is modelled as the `last_error` slot. -/
structure SwarmJob where
  job_id : String
  work_order_id : String
  attempt : ℕ
  status : String
  locked_at : Option ℤ
  last_error : Option String
deriving Repr, DecidableEq

/-- `InMemorySwarmJobQueue.enqueue`: unconditionally append a fresh
queued job (the fresh uuid-derived job id is passed in). -/
def inmem_enqueue (jobs : List SwarmJob) (job_id work_order_id : String) : List SwarmJob :=
  jobs ++ [⟨job_id, work_order_id, 0, "queued", none, none⟩]

/-- `InMemorySwarmJobQueue.claim_next`: the first job with status
`queued` (no availability check exists in this queue) becomes `running`
with attempt incremented and `locked_at` stamped. -/
def inmem_claim_next (now : ℤ) : List SwarmJob → Option (SwarmJob × List SwarmJob)
  | [] => none
  | j :: rest =>
    if j.status == "queued" then
      some ({ j with status := "running", attempt := j.attempt + 1, locked_at := some now },
        { j with status := "running", attempt := j.attempt + 1, locked_at := some now } :: rest)
    else
      match inmem_claim_next now rest with
      | some (c, rest2) => some (c, j :: rest2)
      | none => none

/-- The updated job `mark_retry` writes: dead-letter at the attempt
ceiling, otherwise back to `queued`; lock cleared, error recorded. -/
def retriedJob (j : SwarmJob) (err : String) (max_attempts : ℕ) : SwarmJob :=
  if j.attempt ≥ max_attempts then
    { j with status := "dead_letter", locked_at := none, last_error := some err }
  else
    { j with status := "queued", locked_at := none, last_error := some err }

/-- `InMemorySwarmJobQueue.mark_retry`: update the first job with the
given id (the loop returns after the first match). -/
def inmem_mark_retry (jobs : List SwarmJob) (job_id err : String)
    (max_attempts : ℕ) : List SwarmJob :=
  match jobs with
  | [] => []
  | j :: rest =>
    if j.job_id == job_id then retriedJob j err max_attempts :: rest
    else j :: inmem_mark_retry rest job_id err max_attempts

/-- `InMemorySwarmJobQueue.mark_dead_letter`. -/
def inmem_mark_dead_letter (jobs : List SwarmJob) (job_id err : String) : List SwarmJob :=
  match jobs with
  | [] => []
  | j :: rest =>
    if j.job_id == job_id then
      { j with status := "dead_letter", locked_at := none, last_error := some err } :: rest
    else j :: inmem_mark_dead_letter rest job_id err

/-- A job the reaper considers stuck: `running`, locked, and
`locked_at ≤ cutoff`. -/
def staleJob (cutoff : ℤ) (j : SwarmJob) : Bool :=
  j.status == "running" &&
    (match j.locked_at with
     | none => false
     | some t => decide (t ≤ cutoff))

/-- The reclaimed form of a stale job: `dead_letter` when the attempt
ceiling is reached, else `queued`; lock cleared, error recorded. -/
def reclaimJob (max_attempts : ℕ) (j : SwarmJob) : SwarmJob :=
  if j.attempt ≥ max_attempts then
    { j with
        status := "dead_letter"
        locked_at := none
        last_error := some "stale_timeout_recovered" }
  else
    { j with
        status := "queued"
        locked_at := none
        last_error := some "stale_timeout_recovered" }

/-- The reaper loop of `recover_stale_running`: scan in order, stop once
`limit` jobs were recovered, reclaim each stale job encountered. -/
def inmem_recover_aux (cutoff : ℤ) (max_attempts limit recovered : ℕ) :
    List SwarmJob → List SwarmJob × ℕ
  | [] => ([], recovered)
  | j :: rest =>
    if recovered ≥ limit then (j :: rest, recovered)
    else if staleJob cutoff j then
      ((reclaimJob max_attempts j) ::
          (inmem_recover_aux cutoff max_attempts limit (recovered + 1) rest).1,
        (inmem_recover_aux cutoff max_attempts limit (recovered + 1) rest).2)
    else
      (j :: (inmem_recover_aux cutoff max_attempts limit recovered rest).1,
        (inmem_recover_aux cutoff max_attempts limit recovered rest).2)

/-- `InMemorySwarmJobQueue.recover_stale_running`: cutoff is
`now - max(1, stale_after_seconds)`. -/
def inmem_recover_stale_running (jobs : List SwarmJob) (now stale_after_seconds : ℤ)
    (max_attempts limit : ℕ) : List SwarmJob × ℕ :=
  inmem_recover_aux (now - max 1 stale_after_seconds) max_attempts limit 0 jobs

/-- A `swarm_jobs` table row of the Postgres queue. -/
structure PgJob where
  job_id : String
  work_order_id : String
  status : String
  attempt : ℕ
  max_attempts : ℕ
  available_at : ℤ
  created_at : ℤ
  locked_at : Option ℤ
  worker_id : Option String
  last_error : Option String
deriving Repr, DecidableEq

/-- `PostgresSwarmJobQueue.enqueue`: insert a fresh queued row unless a
row for this work_order_id already exists (`on conflict (work_order_id)
do nothing`). -/
def pg_enqueue (t : List PgJob) (job_id work_order_id : String) (now : ℤ) : List PgJob :=
  if t.any (fun j => j.work_order_id == work_order_id) then t
  else t ++ [⟨job_id, work_order_id, "queued", 0, 3, now, now, none, none, none⟩]

/-- `swarm_langgraph.queue._next_backoff`, in seconds. -/
def next_backoff (attempt : ℕ) : ℤ :=
  if attempt ≤ 1 then 30 else if attempt = 2 then 120 else 600

/-- `PostgresSwarmJobQueue.mark_retry`: read the row's attempt; no row is
a no-op; at the ceiling set `dead_letter`, otherwise requeue with
`available_at = now + _next_backoff(attempt)`; record the error and clear
the lock either way. -/
def pg_mark_retry (t : List PgJob) (job_id err : String) (max_attempts : ℕ)
    (now : ℤ) : List PgJob :=
  match t.find? (fun j => j.job_id == job_id) with
  | none => t
  | some row =>
    if row.attempt ≥ max_attempts then
      t.map (fun j =>
        if j.job_id == job_id then
          { j with status := "dead_letter", last_error := some err, locked_at := none }
        else j)
    else
      t.map (fun j =>
        if j.job_id == job_id then
          { j with
              status := "queued"
              last_error := some err
              locked_at := none
              available_at := now + next_backoff row.attempt }
        else j)

/-- C2 counterexample: the in-memory queue's `enqueue` has no
idempotency guard, so enqueuing the same work_order_id twice leaves two
coexisting queued jobs for that work order in the queue. -/
theorem inmem_enqueue_duplicates_counterexample :
    ((inmem_enqueue (inmem_enqueue [] "job_1" "wo_1") "job_2" "wo_1").filter
        (fun j => j.work_order_id == "wo_1")).length = 2 ∧
    (inmem_enqueue (inmem_enqueue [] "job_1" "wo_1") "job_2" "wo_1").map
        (fun j => j.status) = ["queued", "queued"] := by
  decide

/-- C2 (amended): the Postgres queue's enqueue is idempotent per
work_order_id — a second enqueue for the same work order is a no-op on
the table — and it preserves at-most-one-job-per-work_order_id; the
in-memory queue appends a job on every call, so duplicates can coexist
there. -/
theorem pg_enqueue_idempotent :
    (∀ t id1 id2 w now1 now2,
      pg_enqueue (pg_enqueue t id1 w now1) id2 w now2 = pg_enqueue t id1 w now1) ∧
    (∀ t id w now w2,
      (t.filter (fun j => j.work_order_id == w2)).length ≤ 1 →
        ((pg_enqueue t id w now).filter (fun j => j.work_order_id == w2)).length ≤ 1) := by
  constructor
  · intro t id1 id2 w now1 now2
    cases h : t.any (fun j => j.work_order_id == w)
    · simp [pg_enqueue, h, List.any_append]
    · simp [pg_enqueue, h]
  · intro t id w now w2 h
    cases hc : t.any (fun j => j.work_order_id == w)
    · have hnil : t.filter (fun j => j.work_order_id == w) = [] := by
        rw [List.filter_eq_nil_iff]
        intro a ha
        have := List.any_eq_false.mp hc a ha
        simpa using this
      by_cases hw : w2 = w
      · subst hw
        simp [pg_enqueue, hc, List.filter_append, hnil]
      · have hrow : (w == w2) = false := by
          simp [BEq.comm]
          exact fun he => hw he.symm
        simp [pg_enqueue, hc, List.filter_append, hrow]
        exact h
    · simpa [pg_enqueue, hc] using h

/-- C2 witness: the idempotence and uniqueness-preservation parts applied
at a concrete table. -/
theorem pg_enqueue_idempotent_witness :
    pg_enqueue (pg_enqueue [] "job_1" "wo_1" 0) "job_2" "wo_1" 5
      = pg_enqueue [] "job_1" "wo_1" 0 ∧
    (([] : List PgJob).filter (fun j => j.work_order_id == "wo_1")).length ≤ 1 ∧
    ((pg_enqueue [] "job_1" "wo_1" 0).filter (fun j => j.work_order_id == "wo_1")).length ≤ 1 :=
  ⟨pg_enqueue_idempotent.1 [] "job_1" "job_2" "wo_1" 0 5,
   by decide,
   pg_enqueue_idempotent.2 [] "job_1" "wo_1" 0 "wo_1" (by decide)⟩

/-- The in-memory queue after enqueue, claim at time 0, and a
mark_retry below the attempt ceiling. -/
def exRetriedQueue : List SwarmJob :=
  inmem_mark_retry
    ((inmem_claim_next 0 (inmem_enqueue [] "job_1" "wo_1")).getD
      (⟨"", "", 0, "", none, none⟩, [])).2
    "job_1" "boom" 3

/-- C5 counterexample: the in-memory `mark_retry` carries no
`available_at` at all — the claim's `available_at = now + backoff(1) =
now + 30s` (the earliest claim time) is refuted because the retried job
is claimable again by `claim_next` at the very same instant (time 0). -/
theorem inmem_retry_no_backoff_counterexample :
    exRetriedQueue = [⟨"job_1", "wo_1", 1, "queued", none, some "boom"⟩] ∧
    inmem_claim_next 0 exRetriedQueue
      = some (⟨"job_1", "wo_1", 2, "running", some 0, some "boom"⟩,
          [⟨"job_1", "wo_1", 2, "running", some 0, some "boom"⟩]) := by
  decide

/-- C5 (amended): the backoff ladder is 30s / 2m / 10m; the Postgres
`mark_retry` requeues a job with `attempt < max_attempts` setting
`available_at = now + backoff(attempt)` and recording the error, and
dead-letters it at the ceiling; the in-memory `mark_retry` performs the
same status transitions and records the error, but requeues with no
availability delay. -/
theorem mark_retry_spec :
    (next_backoff 1 = 30 ∧ next_backoff 2 = 120 ∧ ∀ k, 3 ≤ k → next_backoff k = 600) ∧
    (∀ t id err maxA now j, t.find? (fun r => r.job_id == id) = some j →
      j.attempt < maxA →
        pg_mark_retry t id err maxA now
          = t.map (fun r =>
              if r.job_id == id then
                { r with
                    status := "queued"
                    last_error := some err
                    locked_at := none
                    available_at := now + next_backoff j.attempt }
              else r)) ∧
    (∀ t id err maxA now j, t.find? (fun r => r.job_id == id) = some j →
      maxA ≤ j.attempt →
        pg_mark_retry t id err maxA now
          = t.map (fun r =>
              if r.job_id == id then
                { r with status := "dead_letter", last_error := some err, locked_at := none }
              else r)) ∧
    (∀ pre j post err maxA, (∀ k, k ∈ pre → (k.job_id == j.job_id) = false) →
        inmem_mark_retry (pre ++ j :: post) j.job_id err maxA
          = pre ++ retriedJob j err maxA :: post) := by
  refine ⟨⟨rfl, rfl, ?_⟩, ?_, ?_, ?_⟩
  · intro k hk
    unfold next_backoff
    rw [if_neg (by omega), if_neg (by omega)]
  · intro t id err maxA now j hfind hlt
    unfold pg_mark_retry
    rw [hfind]
    dsimp only
    rw [if_neg (by omega)]
  · intro t id err maxA now j hfind hge
    unfold pg_mark_retry
    rw [hfind]
    dsimp only
    rw [if_pos (by omega)]
  · intro pre j post err maxA h
    induction pre with
    | nil => simp [inmem_mark_retry]
    | cons k rest ih =>
      have hk : (k.job_id == j.job_id) = false := h k (by simp)
      simp only [List.cons_append, inmem_mark_retry, hk, Bool.false_eq_true, if_false]
      show k :: inmem_mark_retry (rest ++ j :: post) j.job_id err maxA
        = k :: (rest ++ retriedJob j err maxA :: post)
      rw [ih (fun a ha => h a (by simp [ha]))]

/-- A stale running Postgres-style scenario row for witnesses. -/
def exPgJob : PgJob := ⟨"job_1", "wo_1", "running", 1, 3, 0, 0, some 50, none, none⟩

/-- The same row at the attempt ceiling. -/
def exPgJobMax : PgJob := ⟨"job_1", "wo_1", "running", 3, 3, 0, 0, some 50, none, none⟩

/-- C5 witness: the spec applied at concrete inputs — backoff of a late
attempt, a first-failure requeue, a ceiling dead-letter, and the
in-memory first-match update. -/
theorem mark_retry_spec_witness :
    (3 ≤ 5 ∧ next_backoff 5 = 600) ∧
    pg_mark_retry [exPgJob] "job_1" "boom" 3 100
      = [exPgJob].map (fun r =>
          if r.job_id == "job_1" then
            { r with
                status := "queued"
                last_error := some "boom"
                locked_at := none
                available_at := 100 + next_backoff 1 }
          else r) ∧
    pg_mark_retry [exPgJobMax] "job_1" "boom" 3 100
      = [exPgJobMax].map (fun r =>
          if r.job_id == "job_1" then
            { r with status := "dead_letter", last_error := some "boom", locked_at := none }
          else r) ∧
    inmem_mark_retry ([] ++ ⟨"job_1", "wo_1", 1, "running", some 0, none⟩ :: []) "job_1" "e" 3
      = [] ++ retriedJob ⟨"job_1", "wo_1", 1, "running", some 0, none⟩ "e" 3 :: [] :=
  ⟨⟨by decide, mark_retry_spec.1.2.2 5 (by decide)⟩,
   mark_retry_spec.2.1 [exPgJob] "job_1" "boom" 3 100 exPgJob (by decide) (by decide),
   mark_retry_spec.2.2.1 [exPgJobMax] "job_1" "boom" 3 100 exPgJobMax (by decide) (by decide),
   mark_retry_spec.2.2.2 [] ⟨"job_1", "wo_1", 1, "running", some 0, none⟩ [] "e" 3
     (by intro k hk; cases hk)⟩

lemma reclaim_map_noop (cutoff : ℤ) (maxA : ℕ) (l : List SwarmJob)
    (h : ∀ j ∈ l, staleJob cutoff j = false) :
    l.map (fun j => if staleJob cutoff j then reclaimJob maxA j else j) = l := by
  induction l with
  | nil => rfl
  | cons k rest ih =>
    have hk := h k (by simp)
    simp only [List.map_cons, hk, Bool.false_eq_true, if_false]
    rw [ih (fun a ha => h a (by simp [ha]))]

lemma recover_aux_all (cutoff : ℤ) (maxA limit : ℕ) :
    ∀ (l : List SwarmJob) (rec : ℕ),
      rec + (l.filter (staleJob cutoff)).length ≤ limit →
        inmem_recover_aux cutoff maxA limit rec l
          = (l.map (fun j => if staleJob cutoff j then reclaimJob maxA j else j),
             rec + (l.filter (staleJob cutoff)).length) := by
  intro l
  induction l with
  | nil => intro rec h; simp [inmem_recover_aux]
  | cons k rest ih =>
    intro rec h
    cases hs : staleJob cutoff k
    · rw [List.filter_cons_of_neg (by simp [hs])] at h ⊢
      by_cases hrl : rec ≥ limit
      · have hz : (rest.filter (staleJob cutoff)).length = 0 := by omega
        have hnone : ∀ j ∈ rest, staleJob cutoff j = false := by
          intro j hj
          by_contra hc
          rw [Bool.not_eq_false] at hc
          have : j ∈ rest.filter (staleJob cutoff) := List.mem_filter.mpr ⟨hj, hc⟩
          rw [List.length_eq_zero.mp hz] at this
          cases this
        unfold inmem_recover_aux
        rw [if_pos hrl]
        rw [List.map_cons, hs]
        simp only [Bool.false_eq_true, if_false]
        rw [reclaim_map_noop cutoff maxA rest hnone, hz, Nat.add_zero]
      · unfold inmem_recover_aux
        rw [if_neg hrl, hs]
        simp only [Bool.false_eq_true, if_false]
        rw [ih rec h]
        simp [hs]
    · rw [List.filter_cons_of_pos (by simp [hs])] at h ⊢
      have hrl : ¬ rec ≥ limit := by
        simp only [List.length_cons] at h
        omega
      unfold inmem_recover_aux
      rw [if_neg hrl, hs]
      simp only [if_true]
      rw [ih (rec + 1) (by simp only [List.length_cons] at h; omega)]
      simp only [List.map_cons, hs, if_true, List.length_cons]
      have harith : rec + 1 + (rest.filter (staleJob cutoff)).length
          = rec + ((rest.filter (staleJob cutoff)).length + 1) := by omega
      rw [harith]

lemma recover_aux_keeps (cutoff : ℤ) (maxA limit : ℕ) :
    ∀ (l : List SwarmJob) (rec : ℕ) (j : SwarmJob), j ∈ l → staleJob cutoff j = false →
      j ∈ (inmem_recover_aux cutoff maxA limit rec l).1 := by
  intro l
  induction l with
  | nil => intro rec j hj; cases hj
  | cons k rest ih =>
    intro rec j hj hns
    unfold inmem_recover_aux
    by_cases hrl : rec ≥ limit
    · rw [if_pos hrl]; exact hj
    · rw [if_neg hrl]
      cases hs : staleJob cutoff k
      · simp only [Bool.false_eq_true, if_false]
        rcases List.mem_cons.mp hj with hj0 | hj1
        · subst hj0; exact List.mem_cons_self _ _
        · exact List.mem_cons_of_mem _ (ih rec j hj1 hns)
      · simp only [if_true]
        rcases List.mem_cons.mp hj with hj0 | hj1
        · subst hj0; rw [hs] at hns; cases hns
        · exact List.mem_cons_of_mem _ (ih (rec + 1) j hj1 hns)

/-- A stale running job (locked at time 0). -/
def exStaleA : SwarmJob := ⟨"j1", "w1", 1, "running", some 0, none⟩

/-- A second stale running job (also locked at time 0). -/
def exStaleB : SwarmJob := ⟨"j2", "w2", 1, "running", some 0, none⟩

/-- C6 counterexample: with `limit = 1` and two jobs whose lock age
(1000s) exceeds `stale_after` (60s), the reaper reclaims only the first;
the second stale running job is left running with its lock intact,
refuting "for every job ... recover_stale_running reclaims it". -/
theorem recover_stale_limit_counterexample :
    staleJob (1000 - max 1 60) exStaleB = true ∧
    (inmem_recover_stale_running [exStaleA, exStaleB] 1000 60 3 1).1
      = [reclaimJob 3 exStaleA, exStaleB] ∧
    (inmem_recover_stale_running [exStaleA, exStaleB] 1000 60 3 1).2 = 1 := by
  decide

/-- C6 (amended): whenever at most `limit` jobs are stale, the reaper
reclaims exactly the running jobs whose lock age reaches the threshold —
to `queued` when attempts remain, to `dead_letter` otherwise, lock
cleared — and returns their count; and regardless of `limit`, every job
that is not stale (in particular every running job under the threshold)
survives untouched. -/
theorem recover_stale_running_spec :
    (∀ jobs (now sa : ℤ) maxA limit,
      (jobs.filter (staleJob (now - max 1 sa))).length ≤ limit →
        inmem_recover_stale_running jobs now sa maxA limit
          = (jobs.map (fun j => if staleJob (now - max 1 sa) j then reclaimJob maxA j else j),
             (jobs.filter (staleJob (now - max 1 sa))).length)) ∧
    (∀ jobs (now sa : ℤ) maxA limit j, j ∈ jobs → staleJob (now - max 1 sa) j = false →
        j ∈ (inmem_recover_stale_running jobs now sa maxA limit).1) := by
  constructor
  · intro jobs now sa maxA limit h
    unfold inmem_recover_stale_running
    rw [recover_aux_all (now - max 1 sa) maxA limit jobs 0 (by omega)]
    rw [Nat.zero_add]
  · intro jobs now sa maxA limit j hj hns
    exact recover_aux_keeps (now - max 1 sa) maxA limit jobs 0 j hj hns

/-- A fresh running job, locked 10 seconds before `now = 1000`. -/
def exFresh : SwarmJob := ⟨"j3", "w3", 1, "running", some 990, none⟩

/-- C6 witness: the reaper spec applied at a concrete queue — one stale
job reclaimed and counted, and a fresh running job (lock age 10s <
60s) left untouched. -/
theorem recover_stale_running_spec_witness :
    (([exStaleA, exFresh].filter (staleJob (1000 - max 1 60))).length ≤ 100 ∧
      inmem_recover_stale_running [exStaleA, exFresh] 1000 60 3 100
        = ([exStaleA, exFresh].map
            (fun j => if staleJob (1000 - max 1 60) j then reclaimJob 3 j else j),
           ([exStaleA, exFresh].filter (staleJob (1000 - max 1 60))).length)) ∧
    (exFresh ∈ [exStaleA, exFresh] ∧ staleJob (1000 - max 1 60) exFresh = false ∧
      exFresh ∈ (inmem_recover_stale_running [exStaleA, exFresh] 1000 60 3 100).1) :=
  ⟨⟨by decide, recover_stale_running_spec.1 [exStaleA, exFresh] 1000 60 3 100 (by decide)⟩,
   ⟨by decide, by decide,
    recover_stale_running_spec.2 [exStaleA, exFresh] 1000 60 3 100 exFresh
      (by decide) (by decide)⟩⟩

/-! ## orchestrator/store.py -/

/-- `orchestrator.models.WorkflowRun` (timestamps omitted). -/
structure WorkflowRunM where
  run_id : String
  work_order_id : String
  status : String
  current_stage : String
deriving Repr, DecidableEq

/-- `InMemoryRunStore.start_run`: always builds a fresh run (the fresh
uuid-derived run_id is passed in) and inserts it into the dict keyed by
run_id — modelled as an append, since fresh run ids never collide. -/
def inmem_start_run (runs : List WorkflowRunM) (new_run_id work_order_id : String) :
    WorkflowRunM × List WorkflowRunM :=
  (⟨new_run_id, work_order_id, "running", "start"⟩,
    runs ++ [⟨new_run_id, work_order_id, "running", "start"⟩])

/-- The `on conflict (work_order_id) do update` action of
`PostgresRunStore.start_run`: reset the existing row's status and
current_stage, keeping its run_id. -/
def updRun (w : String) (r : WorkflowRunM) : WorkflowRunM :=
  if r.work_order_id == w then { r with status := "running", current_stage := "start" } else r

/-- `PostgresRunStore.start_run`: insert a fresh row, or on
work_order_id conflict update the existing row in place; the returned
run object always carries the fresh run_id. -/
def pg_start_run (t : List WorkflowRunM) (new_run_id work_order_id : String) :
    WorkflowRunM × List WorkflowRunM :=
  (⟨new_run_id, work_order_id, "running", "start"⟩,
    if t.any (fun r => r.work_order_id == work_order_id) then t.map (updRun work_order_id)
    else t ++ [⟨new_run_id, work_order_id, "running", "start"⟩])

lemma updRun_run_id (w : String) (r : WorkflowRunM) : (updRun w r).run_id = r.run_id := by
  unfold updRun; split <;> rfl

lemma updRun_wo (w : String) (r : WorkflowRunM) :
    (updRun w r).work_order_id = r.work_order_id := by
  unfold updRun; split <;> rfl

lemma updRun_idem (w : String) (r : WorkflowRunM) : updRun w (updRun w r) = updRun w r := by
  unfold updRun
  cases h : r.work_order_id == w
  · simp [h]
  · simp [h]

lemma any_map_updRun (w : String) (t : List WorkflowRunM) :
    ((t.map (updRun w)).any (fun r => r.work_order_id == w))
      = t.any (fun r => r.work_order_id == w) := by
  induction t with
  | nil => rfl
  | cons r rest ih => rw [List.map_cons, List.any_cons, List.any_cons, updRun_wo, ih]

lemma map_updRun_noop (w : String) (t : List WorkflowRunM)
    (h : t.any (fun r => r.work_order_id == w) = false) : t.map (updRun w) = t := by
  induction t with
  | nil => rfl
  | cons r rest ih =>
    rw [List.any_cons, Bool.or_eq_false_iff] at h
    rw [List.map_cons, ih h.2]
    unfold updRun
    rw [h.1]
    simp

/-- C8 counterexample: `InMemoryRunStore.start_run` inserts a fresh run
on every call, so restarting the same work order leaves two run records
for that work_order_id in the store. -/
theorem inmem_start_run_duplicates_counterexample :
    ((inmem_start_run (inmem_start_run [] "run_1" "wo_1").2 "run_2" "wo_1").2.filter
        (fun r => r.work_order_id == "wo_1")).length = 2 := by
  decide

/-- C8 (amended): the Postgres store's start_run upserts the single run
keyed by work_order_id — when a run for the work order exists, the call
overwrites that same row in place (the stored run ids are unchanged, so
no duplicate is ever created) and a repeated start_run leaves the table
fixed; the in-memory store instead creates a fresh run record per call. -/
theorem pg_start_run_upserts :
    (∀ t id w, t.any (fun r => r.work_order_id == w) = true →
      (pg_start_run t id w).2.map (fun r => r.run_id) = t.map (fun r => r.run_id)) ∧
    (∀ t id1 id2 w,
      (pg_start_run (pg_start_run t id1 w).2 id2 w).2 = (pg_start_run t id1 w).2) := by
  constructor
  · intro t id w h
    unfold pg_start_run
    rw [h]
    simp only [if_true, List.map_map]
    exact List.map_congr_left (fun r _ => updRun_run_id w r)
  · intro t id1 id2 w
    cases hc : t.any (fun r => r.work_order_id == w)
    · have h1 : (pg_start_run t id1 w).2 = t ++ [⟨id1, w, "running", "start"⟩] := by
        unfold pg_start_run
        rw [hc]
        simp
      have h2 : ((t ++ [(⟨id1, w, "running", "start"⟩ : WorkflowRunM)]).any
          (fun r => r.work_order_id == w)) = true := by
        rw [List.any_append, hc]
        simp
      rw [h1]
      unfold pg_start_run
      rw [h2]
      simp only [if_true, List.map_append, map_updRun_noop w t hc]
      simp [updRun]
    · have h1 : (pg_start_run t id1 w).2 = t.map (updRun w) := by
        unfold pg_start_run
        rw [hc]
        simp
      rw [h1]
      unfold pg_start_run
      rw [any_map_updRun, hc]
      simp only [if_true, List.map_map]
      exact List.map_congr_left (fun r _ => updRun_idem w r)

/-- C8 witness: the upsert applied at a table already holding a
completed run for the work order — run ids survive and the double call
is stable. -/
theorem pg_start_run_upserts_witness :
    ([(⟨"run_0", "wo_1", "completed", "publish"⟩ : WorkflowRunM)].any
        (fun r => r.work_order_id == "wo_1") = true ∧
      (pg_start_run [⟨"run_0", "wo_1", "completed", "publish"⟩] "run_1" "wo_1").2.map
          (fun r => r.run_id)
        = [(⟨"run_0", "wo_1", "completed", "publish"⟩ : WorkflowRunM)].map
            (fun r => r.run_id)) ∧
    (pg_start_run (pg_start_run [⟨"run_0", "wo_1", "completed", "publish"⟩]
        "run_1" "wo_1").2 "run_2" "wo_1").2
      = (pg_start_run [⟨"run_0", "wo_1", "completed", "publish"⟩] "run_1" "wo_1").2 :=
  ⟨⟨by decide,
    pg_start_run_upserts.1 [⟨"run_0", "wo_1", "completed", "publish"⟩] "run_1" "wo_1"
      (by decide)⟩,
   pg_start_run_upserts.2 [⟨"run_0", "wo_1", "completed", "publish"⟩] "run_1" "run_2" "wo_1"⟩

/-! ## swarm_publish_dispatcher.py -/

/-- The JSON value of a publish payload's `send` field: a boolean, a
string, absent, or any other JSON value reduced to its truthiness. -/
inductive SendVal where
  | boolean (v : Bool)
  | str (v : String)
  | absent
  | other (truthy : Bool)
deriving Repr, DecidableEq

/-- Whitespace for Python `str.strip()`. -/
def isSpaceChar (c : Char) : Bool := c = ' ' || c = '\t' || c = '\n' || c = '\r'

/-- Python `s.strip().lower()`. -/
def stripLower (s : String) : String :=
  String.mk (lowerChars (((s.toList.dropWhile isSpaceChar).reverse.dropWhile
    isSpaceChar).reverse))

/-- `swarm_publish_dispatcher._should_send`: booleans taken as-is,
strings via the truthy set `{1, true, yes, on}` after strip/lower, a
missing field defaults to true, anything else by truthiness. -/
def should_send : SendVal → Bool
  | .boolean v => v
  | .str v =>
    stripLower v == "1" || stripLower v == "true" || stripLower v == "yes"
      || stripLower v == "on"
  | .absent => true
  | .other t => t

/-- A `publish_queue` row (payload reduced to its `send` field plus an
opaque remainder; list order models `created_at` order). -/
structure PubRow where
  id : ℕ
  work_order_id : String
  send : SendVal
  payload_rest : String
  dispatch_status : String
  dispatch_attempts : ℕ
  last_error : Option String
deriving Repr, DecidableEq

/-- `SwarmPublishDispatcher.claim_next`: the first queued row becomes
`running` with `dispatch_attempts` incremented. -/
def pub_claim_next : List PubRow → Option (PubRow × List PubRow)
  | [] => none
  | r :: rest =>
    if r.dispatch_status == "queued" then
      some ({ r with dispatch_status := "running", dispatch_attempts := r.dispatch_attempts + 1 },
        { r with dispatch_status := "running", dispatch_attempts := r.dispatch_attempts + 1 } :: rest)
    else
      match pub_claim_next rest with
      | some (c, rest2) => some (c, r :: rest2)
      | none => none

/-- `SwarmPublishDispatcher.mark_dispatched`: status `dispatched` with
`last_error = note or None`. -/
def pub_mark_dispatched (t : List PubRow) (row_id : ℕ) (note : String) : List PubRow :=
  t.map (fun r =>
    if r.id == row_id then
      { r with
          dispatch_status := "dispatched"
          last_error := if note == "" then none else some note }
    else r)

/-- `SwarmPublishDispatcher.mark_retry_or_dead_letter`: `dead_letter` at
the attempt ceiling, else requeued; error truncated to 1000 chars. -/
def pub_mark_retry_or_dead_letter (t : List PubRow) (row_id : ℕ) (attempt : ℕ)
    (err : String) (max_attempts : ℕ) : List PubRow × String :=
  (t.map (fun r =>
      if r.id == row_id then
        { r with
            dispatch_status := if attempt ≥ max_attempts then "dead_letter" else "queued"
            last_error := some (String.mk (err.toList.take 1000)) }
      else r),
    if attempt ≥ max_attempts then "dead_letter" else "queued")

/-- The summary dictionary `process_once` returns, extended with an
explicit `posted` flag recording whether `_post` (the network call) was
invoked. -/
structure DispatchOutcome where
  status : String
  work_order : Option String
  reason : Option String
  error : Option String
  posted : Bool
deriving Repr, DecidableEq

/-- `SwarmPublishDispatcher.process_once`: claim a row; skip (marking
`dispatched` with a note, no network call) when the payload's send flag
is false or the global auto-send switch is off; otherwise post and
resolve success as `dispatched`, failure via the retry/dead-letter
ladder. The webhook call is the `post` oracle. -/
def process_once (auto_send : Bool) (max_attempts : ℕ) (post : PubRow → Bool × String)
    (t : List PubRow) : List PubRow × DispatchOutcome :=
  match pub_claim_next t with
  | none => (t, ⟨"empty", none, none, none, false⟩)
  | some (row, t1) =>
    if !(should_send row.send) then
      (pub_mark_dispatched t1 row.id "send_false",
        ⟨"skipped", some row.work_order_id, some "send_false", none, false⟩)
    else if !auto_send then
      (pub_mark_dispatched t1 row.id "auto_send_disabled",
        ⟨"skipped", some row.work_order_id, some "auto_send_disabled", none, false⟩)
    else
      if (post row).1 then
        (pub_mark_dispatched t1 row.id "",
          ⟨"dispatched", some row.work_order_id, none, none, true⟩)
      else
        ((pub_mark_retry_or_dead_letter t1 row.id row.dispatch_attempts (post row).2
            max_attempts).1,
          ⟨(pub_mark_retry_or_dead_letter t1 row.id row.dispatch_attempts (post row).2
              max_attempts).2,
            some row.work_order_id, none, some (post row).2, true⟩)

/-- C9: for every claimed publish row, a false send flag — or the global
auto-send switch being off — marks the row dispatched with the
diagnostic note, performs no network call, and yields the `skipped`
(success) outcome rather than retry or dead-letter; and the network call
happens exactly when both the send flag and the auto-send switch allow
it. -/
theorem dispatcher_skips_without_send :
    (∀ auto_send maxA post t row t1, pub_claim_next t = some (row, t1) →
      should_send row.send = false →
        process_once auto_send maxA post t
          = (pub_mark_dispatched t1 row.id "send_false",
              ⟨"skipped", some row.work_order_id, some "send_false", none, false⟩)) ∧
    (∀ maxA post t row t1, pub_claim_next t = some (row, t1) →
      should_send row.send = true →
        process_once false maxA post t
          = (pub_mark_dispatched t1 row.id "auto_send_disabled",
              ⟨"skipped", some row.work_order_id, some "auto_send_disabled", none, false⟩)) ∧
    (∀ auto_send maxA post t row t1, pub_claim_next t = some (row, t1) →
      (process_once auto_send maxA post t).2.posted
        = (should_send row.send && auto_send)) := by
  refine ⟨?_, ?_, ?_⟩
  · intro auto_send maxA post t row t1 hclaim hsend
    unfold process_once
    rw [hclaim]
    dsimp only
    rw [hsend]
    simp
  · intro maxA post t row t1 hclaim hsend
    unfold process_once
    rw [hclaim]
    dsimp only
    rw [hsend]
    simp
  · intro auto_send maxA post t row t1 hclaim
    unfold process_once
    rw [hclaim]
    dsimp only
    cases hsend : should_send row.send
    · simp
    · cases hauto : auto_send
      · simp
      · cases hpost : (post row).1 <;> simp [hpost]

/-- A queued publish row whose payload carries `send: false`. -/
def exPubNoSend : PubRow := ⟨1, "wo_1", .boolean false, "p", "queued", 0, none⟩

/-- A queued publish row whose payload has no `send` field. -/
def exPubDefault : PubRow := ⟨2, "wo_2", .absent, "p", "queued", 0, none⟩

/-- C9 witness: the three dispatcher facts applied at concrete queues —
an explicit `send: false` row, an allowed row with auto-send off, and
the posted-iff-allowed equation. -/
theorem dispatcher_skips_without_send_witness :
    process_once true 5 (fun _ => (true, "")) [exPubNoSend]
      = (pub_mark_dispatched
          [{ exPubNoSend with dispatch_status := "running", dispatch_attempts := 1 }] 1
          "send_false",
          ⟨"skipped", some "wo_1", some "send_false", none, false⟩) ∧
    process_once false 5 (fun _ => (true, "")) [exPubDefault]
      = (pub_mark_dispatched
          [{ exPubDefault with dispatch_status := "running", dispatch_attempts := 1 }] 2
          "auto_send_disabled",
          ⟨"skipped", some "wo_2", some "auto_send_disabled", none, false⟩) ∧
    (process_once true 5 (fun _ => (true, "")) [exPubDefault]).2.posted
      = (should_send (SendVal.absent) && true) :=
  ⟨dispatcher_skips_without_send.1 true 5 (fun _ => (true, "")) [exPubNoSend]
      { exPubNoSend with dispatch_status := "running", dispatch_attempts := 1 }
      [{ exPubNoSend with dispatch_status := "running", dispatch_attempts := 1 }]
      rfl rfl,
   dispatcher_skips_without_send.2.1 5 (fun _ => (true, "")) [exPubDefault]
      { exPubDefault with dispatch_status := "running", dispatch_attempts := 1 }
      [{ exPubDefault with dispatch_status := "running", dispatch_attempts := 1 }]
      rfl rfl,
   dispatcher_skips_without_send.2.2 true 5 (fun _ => (true, "")) [exPubDefault]
      { exPubDefault with dispatch_status := "running", dispatch_attempts := 1 }
      [{ exPubDefault with dispatch_status := "running", dispatch_attempts := 1 }]
      rfl⟩

/-! ## swarm_ingest.py -/

/-- The persisted `{offset, mtime_ns, start_sig}` ingest state. -/
structure IngestState where
  offset : ℕ
  mtime_ns : ℤ
  start_sig : List Char
deriving Repr, DecidableEq

/-- The actionable log file as observed during one pass: its bytes and
its mtime. -/
structure IngestFile where
  content : List Char
  mtime_ns : ℤ
deriving Repr, DecidableEq

/-- `ActionableSwarmIngestor._start_signature`: sha1 of the first 256
bytes, modelled as the leading bytes themselves (an injective stand-in
for the hash — two signatures differ exactly when the leading bytes do). -/
def startSignature (content : List Char) : List Char := content.take 256

/-- A well-formed inner work-order record extracted from a log line
(`_extract_work_order` guarantees a non-empty id). -/
structure IngestRecord where
  work_order_id : String
deriving Repr, DecidableEq

/-- Python `splitlines` on newline-terminated text. -/
def splitLinesAux (cur : List Char) : List Char → List (List Char)
  | [] => if cur.isEmpty then [] else [cur.reverse]
  | c :: rest =>
    if c = '\n' then cur.reverse :: splitLinesAux [] rest
    else splitLinesAux (c :: cur) rest

/-- Split a chunk into lines. -/
def splitLines (l : List Char) : List (List Char) := splitLinesAux [] l

/-- Python `line.strip()`. -/
def stripChars (l : List Char) : List Char :=
  ((l.dropWhile isSpaceChar).reverse.dropWhile isSpaceChar).reverse

/-- The per-pass counters `ingest_once` reports. -/
structure IngestStats where
  rows_read : ℕ
  rows_enqueued : ℕ
  rows_skipped : ℕ
deriving Repr, DecidableEq

/-- The line loop of `ingest_once`: skip blank lines, count each
non-blank line read, enqueue parsed records, count malformed/recordless
lines as skipped. `parse` stands for `json.loads` plus
`_extract_work_order`. -/
def ingestLines (parse : List Char → Option IngestRecord) :
    List (List Char) → List IngestRecord × IngestStats
  | [] => ([], ⟨0, 0, 0⟩)
  | ln :: rest =>
    if (stripChars ln).isEmpty then ingestLines parse rest
    else
      match parse (stripChars ln), ingestLines parse rest with
      | some r, (recs, stats) =>
        (r :: recs, ⟨stats.rows_read + 1, stats.rows_enqueued + 1, stats.rows_skipped⟩)
      | none, (recs, stats) =>
        (recs, ⟨stats.rows_read + 1, stats.rows_enqueued, stats.rows_skipped + 1⟩)

/-- The rotation/truncation test exactly as `ingest_once` writes it:
`offset > file_size or start_sig != previous or (file_size <= offset and
mtime_ns != previous_mtime_ns)`. -/
def codeResetCond (st : IngestState) (size : ℕ) (mtime : ℤ) (sig : List Char) : Bool :=
  decide (size < st.offset) || !(sig == st.start_sig)
    || (decide (size ≤ st.offset) && !(mtime == st.mtime_ns))

/-- The reset test exactly as the claim words it: the signature changed,
or the file shrank below the stored offset while the mtime also changed. -/
def claimResetCond (st : IngestState) (size : ℕ) (mtime : ℤ) (sig : List Char) : Bool :=
  !(sig == st.start_sig) || (decide (size < st.offset) && !(mtime == st.mtime_ns))

/-- `ActionableSwarmIngestor.ingest_once` over an existing file: compute
the effective read offset (0 when the reset condition fires, the stored
offset otherwise), read to end-of-file, process the lines, and persist
`{offset = file size, mtime, signature}` — also when the chunk was
empty. The missing-file early return (which persists nothing) is outside
this model. -/
def ingest_once (parse : List Char → Option IngestRecord) (st : IngestState)
    (f : IngestFile) : IngestState × (List IngestRecord × IngestStats) :=
  (⟨f.content.length, f.mtime_ns, startSignature f.content⟩,
    ingestLines parse (splitLines (f.content.drop
      (if codeResetCond st f.content.length f.mtime_ns (startSignature f.content) then 0
       else st.offset))))

/-- What one pass enqueues under the claim's reset rule. -/
def claim_ingest_enqueued (parse : List Char → Option IngestRecord) (st : IngestState)
    (f : IngestFile) : List IngestRecord :=
  (ingestLines parse (splitLines (f.content.drop
    (if claimResetCond st f.content.length f.mtime_ns (startSignature f.content) then 0
     else st.offset)))).1

/-- The concrete parse oracle for the scenario: the single line `a`
holds a work order `wo1`. -/
def exParse : List Char → Option IngestRecord :=
  fun l => if l = ['a'] then some ⟨"wo1"⟩ else none

/-- Stored state: the whole 2-byte file `"a\n"` was already read
(offset 2) at mtime 1, signature recorded. -/
def exIngestState : IngestState := ⟨2, 1, startSignature "a\n".toList⟩

/-- The file on the next pass: same bytes and size, but the mtime
changed to 2. -/
def exIngestFile : IngestFile := ⟨"a\n".toList, 2⟩

/-- C10 counterexample: same signature and no shrink below the offset
(size equals it), so the claim resumes at the stored offset and
enqueues nothing — but the code's extra `file_size <= offset and mtime
changed` case fires, resets to 0, and the pass re-enqueues the already
ingested record. -/
theorem ingest_reset_counterexample :
    claimResetCond exIngestState "a\n".toList.length 2 (startSignature "a\n".toList) = false ∧
    claim_ingest_enqueued exParse exIngestState exIngestFile = [] ∧
    codeResetCond exIngestState "a\n".toList.length 2 (startSignature "a\n".toList) = true ∧
    (ingest_once exParse exIngestState exIngestFile).2.1 = [⟨"wo1"⟩] := by
  decide

/-- C10 (amended): the new offset (file size), current mtime and
signature are persisted after every pass over an existing file, even
when nothing was enqueued; the offset resets to 0 exactly when the
signature changed, or the file shrank strictly below the stored offset
(regardless of mtime), or the file size is at or below the stored
offset while the mtime changed; otherwise the pass reads from the
stored offset. -/
theorem ingest_offset_spec :
    (∀ parse st f, (ingest_once parse st f).1
        = ⟨f.content.length, f.mtime_ns, startSignature f.content⟩) ∧
    (∀ st (size : ℕ) (mtime : ℤ) sig,
      codeResetCond st size mtime sig
        = (!(sig == st.start_sig) || decide (size < st.offset)
            || (decide (size ≤ st.offset) && !(mtime == st.mtime_ns)))) ∧
    (∀ parse st f, codeResetCond st f.content.length f.mtime_ns (startSignature f.content) = false →
      (ingest_once parse st f).2
        = ingestLines parse (splitLines (f.content.drop st.offset))) ∧
    (∀ parse st f, codeResetCond st f.content.length f.mtime_ns (startSignature f.content) = true →
      (ingest_once parse st f).2
        = ingestLines parse (splitLines f.content)) := by
  refine ⟨fun parse st f => rfl, ?_, ?_, ?_⟩
  · intro st size mtime sig
    unfold codeResetCond
    rcases (sig == st.start_sig) with _ | _ <;>
      rcases decide (size < st.offset) with _ | _ <;>
        rcases decide (size ≤ st.offset) with _ | _ <;>
          rcases (mtime == st.mtime_ns) with _ | _ <;> rfl
  · intro parse st f h
    unfold ingest_once
    rw [h]
    simp
  · intro parse st f h
    unfold ingest_once
    rw [h]
    simp

/-- C10 witness: a clean follow-up pass (unchanged signature and mtime,
offset at an unshrunk size) resumes from the stored offset, persists the
new state, and enqueues nothing; the rotated-file pass re-reads from 0. -/
theorem ingest_offset_spec_witness :
    (ingest_once exParse ⟨2, 1, startSignature "a\n".toList⟩ ⟨"a\n".toList, 1⟩).1
      = ⟨2, 1, startSignature "a\n".toList⟩ ∧
    (codeResetCond ⟨2, 1, startSignature "a\n".toList⟩ 2 1 (startSignature "a\n".toList)
        = false ∧
      (ingest_once exParse ⟨2, 1, startSignature "a\n".toList⟩ ⟨"a\n".toList, 1⟩).2
        = ingestLines exParse (splitLines ("a\n".toList.drop 2))) ∧
    (codeResetCond exIngestState 2 2 (startSignature "a\n".toList) = true ∧
      (ingest_once exParse exIngestState exIngestFile).2
        = ingestLines exParse (splitLines "a\n".toList)) :=
  ⟨ingest_offset_spec.1 exParse ⟨2, 1, startSignature "a\n".toList⟩ ⟨"a\n".toList, 1⟩,
   ⟨by decide,
    ingest_offset_spec.2.2.1 exParse ⟨2, 1, startSignature "a\n".toList⟩
      ⟨"a\n".toList, 1⟩ (by decide)⟩,
   ⟨by decide,
    ingest_offset_spec.2.2.2 exParse exIngestState exIngestFile (by decide)⟩⟩

end TapdashSwarm
